import Mathlib

/-!
Shallow embedding of `src/ipfs-publish.py`, a small Python 2 tool with three
subcommands (`init <directory>`, `publish`, `deploy`) backed by one persisted
JSON record (`ipfs-publish.json`).

Modelling conventions:
- The persisted config file is modelled as an `Option Config` (the parsed
  record when the file exists, `none` otherwise); a whole-file rewrite is a
  replacement of that value.
- External effects (prints to stdout, subprocess command strings) are recorded
  in outcome structures.
- The external `ipfs add` / `ssh` subprocesses are opaque: their stdout and
  stderr texts are inputs of the model (an environment record).
- In both `publish` and `deploy`, `subprocess.Popen` is created WITHOUT
  `stderr=subprocess.PIPE`; Python's `communicate()` therefore returns `None`
  for the stderr component.  `communicateStdoutOnly` reproduces exactly this.
- Python's `exit(n)` inside a function terminates the process with code `n`;
  falling off the end of `publish` returns `None` and `main` then calls
  `exit(0)`.  `Control` records which of these happened, and an out-of-range
  negative index (`hs[-2]` on a list shorter than 2) is the `raised` case
  (an uncaught `IndexError`).
-/

/-- A version entry, as built by `new(hash_str)` in the source:
`{"date_time": time.strftime(...), "hash": hash_str}`. -/
structure VersionEntry where
  date_time : String
  hash : String
deriving Repr, DecidableEq

/-- The persisted record `{"versions": [...], "directory": ...}`. -/
structure Config where
  versions : List VersionEntry
  directory : String
deriving Repr, DecidableEq

/-- `new(hash_str)` from the source; the current `time.strftime` text is an
explicit argument `now`. -/
def new (hash_str : String) (now : String) : VersionEntry :=
  { date_time := now, hash := hash_str }

/-- Python's `s.split('\n')` on the character list: split on every newline,
keeping empty pieces, so a trailing newline yields a final empty element and
the empty string yields `[[]]`. -/
def splitNl (cs : List Char) : List (List Char) :=
  match cs with
  | [] => [[]]
  | c :: rest =>
    let r := splitNl rest
    if c = '\n' then [] :: r
    else
      match r with
      | [] => [[c]]
      | h :: t => (c :: h) :: t

/-- `out.split('\n')` from line 27 of the source, as a `String` operation. -/
def pySplitLines (s : String) : List String :=
  (splitNl s.data).map (fun cs => String.mk cs)

/-- Lines 27-28 of the source: `hs = out.split('\n'); hash_str = hs[-2]`.
Python's `hs[-2]` is the element at index `len - 2` and raises `IndexError`
when the list has fewer than two elements; the latter is modelled as `none`. -/
def extractHash (out : String) : Option String :=
  let hs := pySplitLines out
  if h : 2 ≤ hs.length then some (hs.get ⟨hs.length - 2, by omega⟩) else none

/-- `proc.communicate()` for a `Popen` whose `stdout` is piped but whose
`stderr` is NOT redirected (lines 24 and 53-58 of the source): the captured
pair is the stdout text together with `None` for stderr, whatever the process
actually wrote to its standard error. -/
def communicateStdoutOnly (stdoutText stderrText : String) : String × Option String :=
  (stdoutText, none)

/-- How a call of `publish()` ends: `exit(n)`, a normal return (of the hash
string, or of `None` when the `isdir` guard fails), or an uncaught exception. -/
inductive Control where
  | exited (code : Nat)
  | returned (hash_str : Option String)
  | raised
deriving Repr, DecidableEq

/-- The external world as seen by one `publish()` call: whether
`os.path.isdir(config["directory"])` holds, the texts the `ipfs add`
subprocess writes to stdout and stderr, and the `time.strftime` result. -/
structure PublishEnv where
  isdir : Bool
  addStdout : String
  addStderr : String
  now : String
deriving Repr, DecidableEq

/-- Observable outcome of one `publish()` call: the lines printed, the shell
commands spawned, the final content of `ipfs-publish.json`, and how the call
ended. -/
structure PublishOutcome where
  prints : List String
  commands : List String
  file : Option Config
  control : Control
deriving Repr, DecidableEq

/-- Lines 17-43 of the source.  `config` is the record parsed from the
existing `ipfs-publish.json` (main only calls `publish` when the file
exists), so the initial file content is `some config`. -/
def publish (env : PublishEnv) (config : Config) : PublishOutcome :=
  if env.isdir then
    let cmd := "ipfs add -q -r " ++ config.directory
    let pr0 := "Publishing " ++ config.directory
    let outErr := communicateStdoutOnly env.addStdout env.addStderr
    let out := outErr.1
    let err := outErr.2
    match extractHash out with
    | none =>
      { prints := [pr0], commands := [cmd], file := some config,
        control := Control.raised }
    | some hash_str =>
      if err ≠ none then
        { prints := [pr0, err.getD ""], commands := [cmd], file := some config,
          control := Control.exited 1 }
      else if 0 < config.versions.length ∧
          some hash_str = (config.versions.getLast?).map VersionEntry.hash then
        { prints := [pr0, "Nothing to update."], commands := [cmd],
          file := some config, control := Control.exited 1 }
      else
        { prints := [pr0, hash_str], commands := [cmd],
          file := some { config with
            versions := config.versions ++ [new hash_str env.now] },
          control := Control.returned (some hash_str) }
  else
    { prints := [], commands := [], file := some config,
      control := Control.returned none }

/-- Process exit status of `./ipfs-publish.py publish` when the config file
exists: main runs `publish()` then `exit(0)` (line 74-75), so an `exit(n)`
inside `publish` wins, a normal return gives 0, and an uncaught exception
gives Python's status 1. -/
def publishProcessExit (o : PublishOutcome) : Nat :=
  match o.control with
  | Control.exited c => c
  | Control.returned _ => 0
  | Control.raised => 1

/-- Lines 8-11 of the source: the record `init(directory)` builds and writes
(opening the file with mode `w` truncates, i.e. fully overwrites). -/
def init (directory : String) : Config :=
  { versions := [], directory := directory }

/-- Outcome of a CLI dispatch: printed lines, final config-file content,
process exit status. -/
structure CliOutcome where
  prints : List String
  file : Option Config
  exitCode : Nat
deriving Repr, DecidableEq

/-- Lines 66-71 and 85 of the source: `init <d>` dispatch.  `isdir` is
`os.path.isdir(d)`; `file0` is the prior content of `ipfs-publish.json`.
On success `init(d)` overwrites the file and main exits 0; otherwise main
prints `d, "is not a directory."` and falls through to `exit(1)` with no
write. -/
def mainInit (isdir : Bool) (d : String) (file0 : Option Config) : CliOutcome :=
  if isdir then
    { prints := [], file := some (init d), exitCode := 0 }
  else
    { prints := [d ++ " is not a directory."], file := file0, exitCode := 1 }

/-- The external world as seen by one `deploy()` call: the texts the `ssh`
subprocess writes to stdout and stderr. -/
structure DeployEnv where
  remoteOut : String
  remoteErr : String
deriving Repr, DecidableEq

/-- Observable outcome of one `deploy()` call. -/
structure DeployOutcome where
  prints : List String
  commands : List String
deriving Repr, DecidableEq

/-- The remote command string of lines 54-58 of the source, embedding the
target hash twice: once after `ipfs pin add` and once after
`ipfs name publish`. -/
def deployCommand (hash_str : String) : String :=
  "ssh -t basile@basilehenry.com \"ipfs pin add " ++ hash_str ++
    " && ipfs name publish " ++ hash_str ++ "\""

/-- Lines 45-60 of the source.  When `versions` is non-empty, one `ssh`
subprocess is spawned (stderr not piped, so the captured `err` is `None`)
and `print err if err != None else out` prints the stdout text. -/
def deploy (env : DeployEnv) (config : Config) : DeployOutcome :=
  if h : 0 < config.versions.length then
    let hash_str :=
      (config.versions.getLast (List.ne_nil_of_length_pos h)).hash
    let outErr := communicateStdoutOnly env.remoteOut env.remoteErr
    let out := outErr.1
    let err := outErr.2
    { prints := [if err ≠ none then err.getD "" else out],
      commands := [deployCommand hash_str] }
  else
    { prints := [], commands := [] }

/-- Lines 78-81 and 85 of the source: `deploy` dispatch.  When the config
file exists, main runs `deploy()` then `exit(0)`; otherwise it falls through
to `exit(1)` printing nothing. -/
def mainDeploy (configFileExists : Bool) (env : DeployEnv) (config : Config) :
    DeployOutcome × Nat :=
  if configFileExists then (deploy env config, 0)
  else ({ prints := [], commands := [] }, 1)

/-- Helper: when the `isdir` guard of `publish` fails, the whole body is
skipped: nothing printed, nothing spawned, file untouched, `None` returned. -/
theorem publish_not_isdir (env : PublishEnv) (config : Config)
    (hdir : env.isdir = false) :
    publish env config =
      { prints := [], commands := [], file := some config,
        control := Control.returned none } := by
  simp [publish, hdir]

/-- C1 (counterexample): on the output `"Qmaaa\nQmbbb\nQmccc\n"` the code does
NOT extract `"Qmbbb"`: `hs[-2]` of `["Qmaaa", "Qmbbb", "Qmccc", ""]` is
`"Qmccc"`, a different string. -/
theorem extractHash_not_Qmbbb :
    extractHash "Qmaaa\nQmbbb\nQmccc\n" = some "Qmccc" ∧
    decide (extractHash "Qmaaa\nQmbbb\nQmccc\n" = some "Qmbbb") = false := by
  decide

/-- C1 (amended): `publish` extracts the identifier as the second-to-last
element of the newline-split output (the element at index `length - 2`); on
`"Qmaaa\nQmbbb\nQmccc\n"` the split is `["Qmaaa", "Qmbbb", "Qmccc", ""]` and
the extracted identifier is `"Qmccc"` (the last non-empty line), not
`"Qmbbb"`. -/
theorem extractHash_second_to_last :
    (∀ out : String, 2 ≤ (pySplitLines out).length →
      extractHash out = (pySplitLines out).get? ((pySplitLines out).length - 2)) ∧
    pySplitLines "Qmaaa\nQmbbb\nQmccc\n" = ["Qmaaa", "Qmbbb", "Qmccc", ""] ∧
    extractHash "Qmaaa\nQmbbb\nQmccc\n" = some "Qmccc" := by
  refine ⟨?_, by decide, by decide⟩
  intro out hlen
  simp only [extractHash, dif_pos hlen]
  exact (List.get?_eq_get (by omega)).symm

/-- C1 (witness): the general rule applied at the concrete output
`"x\ny\n"`. -/
theorem extractHash_second_to_last_w :
    extractHash "x\ny\n" =
      (pySplitLines "x\ny\n").get? ((pySplitLines "x\ny\n").length - 2) :=
  extractHash_second_to_last.1 "x\ny\n" (by decide)

/-- C2 (code bug): the `ipfs add` subprocess is spawned without
`stderr=subprocess.PIPE`, so the captured `err` is always `None` and the
`if err != None: print err; exit(1)` branch is dead: even when the external
command writes `"Error: something failed"` to standard error, `publish`
prints the hash (not the error text), appends a version entry, rewrites the
config file, and the process exits 0. -/
theorem publish_stderr_ignored :
    (∀ o e : String, (communicateStdoutOnly o e).2 = none) ∧
    (let env : PublishEnv :=
      { isdir := true, addStdout := "QmNew\n",
        addStderr := "Error: something failed", now := "2026-10-12 00:00:00" }
     let config : Config := { versions := [], directory := "site" }
     env.addStderr ≠ "" ∧
     publish env config =
       { prints := ["Publishing site", "QmNew"],
         commands := ["ipfs add -q -r site"],
         file := some ⟨[⟨"2026-10-12 00:00:00", "QmNew"⟩], "site"⟩,
         control := Control.returned (some "QmNew") } ∧
     publishProcessExit (publish env config) = 0) := by
  exact ⟨fun o e => rfl, by decide, by decide, by decide⟩

/-- C3: when the directory exists and the extracted identifier equals the
hash of the last stored version entry, `publish` prints "Nothing to update.",
the process exits 1, the config file keeps its exact previous content, and
the persisted versions list length is unchanged. -/
theorem publish_nothing_to_update (env : PublishEnv) (config : Config)
    (h : String) (hdir : env.isdir = true)
    (hex : extractHash env.addStdout = some h)
    (hlast : (config.versions.getLast?).map VersionEntry.hash = some h) :
    publish env config =
      { prints := ["Publishing " ++ config.directory, "Nothing to update."],
        commands := ["ipfs add -q -r " ++ config.directory],
        file := some config, control := Control.exited 1 } ∧
    publishProcessExit (publish env config) = 1 ∧
    ((publish env config).file.map fun c => c.versions.length) =
      some config.versions.length := by
  have hne : config.versions ≠ [] := by
    intro hnil
    rw [hnil] at hlast
    simp [List.getLast?] at hlast
  have hlen : 0 < config.versions.length := List.length_pos.mpr hne
  have hcond : 0 < config.versions.length ∧
      some h = (config.versions.getLast?).map VersionEntry.hash :=
    ⟨hlen, hlast.symm⟩
  have heq : publish env config =
      { prints := ["Publishing " ++ config.directory, "Nothing to update."],
        commands := ["ipfs add -q -r " ++ config.directory],
        file := some config, control := Control.exited 1 } := by
    simp only [publish, communicateStdoutOnly, hdir, if_true, hex]
    rw [if_neg (by simp), if_pos hcond]
  refine ⟨heq, ?_, ?_⟩ <;> rw [heq] <;> rfl

/-- C3 (witness): republishing `"QmA\n"` against a record whose last entry
already has hash `"QmA"` exits 1 without touching the stored record. -/
theorem publish_nothing_to_update_w :
    publishProcessExit
      (publish ⟨true, "QmA\n", "", "t1"⟩ ⟨[⟨"t0", "QmA"⟩], "d"⟩) = 1 ∧
    (publish ⟨true, "QmA\n", "", "t1"⟩ ⟨[⟨"t0", "QmA"⟩], "d"⟩).file =
      some ⟨[⟨"t0", "QmA"⟩], "d"⟩ :=
  ⟨(publish_nothing_to_update ⟨true, "QmA\n", "", "t1"⟩ ⟨[⟨"t0", "QmA"⟩], "d"⟩
      "QmA" rfl (by decide) (by decide)).2.1,
   by rw [(publish_nothing_to_update ⟨true, "QmA\n", "", "t1"⟩
      ⟨[⟨"t0", "QmA"⟩], "d"⟩ "QmA" rfl (by decide) (by decide)).1]⟩

/-- C4: whenever `publish` returns an identifier `h` (the success path), the
persisted versions list is exactly the old list with the single new entry
`new h env.now` appended: its length grows by exactly 1 and every prior entry
is unchanged at its original position. -/
theorem publish_success_appends (env : PublishEnv) (config : Config)
    (h : String)
    (hret : (publish env config).control = Control.returned (some h)) :
    (publish env config).file =
      some { versions := config.versions ++ [new h env.now],
             directory := config.directory } ∧
    ((publish env config).file.map fun c => c.versions.length) =
      some (config.versions.length + 1) ∧
    (∀ i : Nat, i < config.versions.length →
      ((publish env config).file.map fun c => c.versions.get? i) =
        some (config.versions.get? i)) := by
  by_cases hdir : env.isdir
  · rcases hex : extractHash env.addStdout with _ | hstr
    · exfalso
      simp [publish, communicateStdoutOnly, hdir, hex] at hret
    · by_cases hcond : 0 < config.versions.length ∧
          some hstr = (config.versions.getLast?).map VersionEntry.hash
      · exfalso
        simp only [publish, communicateStdoutOnly, hdir, if_true, hex] at hret
        rw [if_neg (by simp), if_pos hcond] at hret
        simp at hret
      · have hfile : publish env config =
            { prints := ["Publishing " ++ config.directory, hstr],
              commands := ["ipfs add -q -r " ++ config.directory],
              file := some { versions := config.versions ++ [new hstr env.now],
                             directory := config.directory },
              control := Control.returned (some hstr) } := by
          simp only [publish, communicateStdoutOnly, hdir, if_true, hex]
          rw [if_neg (by simp), if_neg hcond]
        have hh : hstr = h := by
          rw [hfile] at hret
          simpa using hret
        subst hh
        rw [hfile]
        refine ⟨rfl, by simp, ?_⟩
        intro i hi
        simp [List.getElem?_append_left hi]
  · exfalso
    simp [publish, hdir] at hret

/-- C4 (witness): publishing `"QmB\n"` over a record whose only entry has
hash `"QmA"` persists exactly the old list plus the one new entry. -/
theorem publish_success_appends_w :
    (publish ⟨true, "QmB\n", "", "t1"⟩ ⟨[⟨"t0", "QmA"⟩], "d"⟩).file =
      some ⟨[⟨"t0", "QmA"⟩, ⟨"t1", "QmB"⟩], "d"⟩ :=
  (publish_success_appends ⟨true, "QmB\n", "", "t1"⟩ ⟨[⟨"t0", "QmA"⟩], "d"⟩
    "QmB" (by decide)).1

/-- C5 (counterexample): with the recorded directory gone (`isdir` false) and
a non-empty stored record, the `publish` process exits with status 0 and
prints nothing at all: there is no non-zero exit and no error indication, so
the operation does not fail with `NotADirectory`. -/
theorem publish_gone_dir_no_failure :
    publishProcessExit
      (publish ⟨false, "", "", "t"⟩ ⟨[⟨"t0", "QmA"⟩], "gone"⟩) = 0 ∧
    (publish ⟨false, "", "", "t"⟩ ⟨[⟨"t0", "QmA"⟩], "gone"⟩).prints = [] := by
  decide

/-- C5 (amended): when the recorded directory no longer exists as a
directory, `publish` does not fail at all: it prints nothing and the process
exits with status 0 (the `isdir` guard silently skips the whole body and
`main` reaches `exit(0)`). -/
theorem publish_gone_dir_exits_zero (env : PublishEnv) (config : Config)
    (hdir : env.isdir = false) :
    publishProcessExit (publish env config) = 0 ∧
    (publish env config).prints = [] := by
  rw [publish_not_isdir env config hdir]
  exact ⟨rfl, rfl⟩

/-- C5 (witness): the amended claim at a concrete gone directory. -/
theorem publish_gone_dir_exits_zero_w :
    publishProcessExit
      (publish ⟨false, "o", "e", "t"⟩ ⟨[⟨"t0", "QmA"⟩], "gone"⟩) = 0 ∧
    (publish ⟨false, "o", "e", "t"⟩ ⟨[⟨"t0", "QmA"⟩], "gone"⟩).prints = [] :=
  publish_gone_dir_exits_zero ⟨false, "o", "e", "t"⟩ ⟨[⟨"t0", "QmA"⟩], "gone"⟩
    rfl

/-- C6: when the recorded directory is not a directory, `publish` spawns no
external command, leaves the config file unchanged, prints nothing, and the
process exits with status 0. -/
theorem publish_gone_dir_frame (env : PublishEnv) (config : Config)
    (hdir : env.isdir = false) :
    publish env config =
      { prints := [], commands := [], file := some config,
        control := Control.returned none } ∧
    publishProcessExit (publish env config) = 0 := by
  have heq := publish_not_isdir env config hdir
  exact ⟨heq, by rw [heq]; rfl⟩

/-- C6 (witness): the frame property at a concrete environment and record. -/
theorem publish_gone_dir_frame_w :
    publish ⟨false, "QmX\n", "err", "t"⟩ ⟨[⟨"t0", "QmA"⟩], "gone"⟩ =
      { prints := [], commands := [],
        file := some ⟨[⟨"t0", "QmA"⟩], "gone"⟩,
        control := Control.returned none } ∧
    publishProcessExit
      (publish ⟨false, "QmX\n", "err", "t"⟩ ⟨[⟨"t0", "QmA"⟩], "gone"⟩) = 0 :=
  publish_gone_dir_frame ⟨false, "QmX\n", "err", "t"⟩ ⟨[⟨"t0", "QmA"⟩], "gone"⟩
    rfl

/-- C7: for an existing directory `d`, the `init <d>` dispatch writes the
record `{versions := [], directory := d}` and exits 0, whatever the config
file held before (a second `init` replaces the file, discarding previously
stored versions). -/
theorem mainInit_overwrites (isdir : Bool) (d : String) (file0 : Option Config)
    (hdir : isdir = true) :
    mainInit isdir d file0 =
      { prints := [], file := some { versions := [], directory := d },
        exitCode := 0 } := by
  rw [hdir]
  rfl

/-- C7 (witness): re-running `init "new"` over a file already holding a
record with one stored version replaces it with the empty-version record. -/
theorem mainInit_overwrites_w :
    mainInit true "new" (some ⟨[⟨"t0", "QmA"⟩], "old"⟩) =
      { prints := [], file := some { versions := [], directory := "new" },
        exitCode := 0 } :=
  mainInit_overwrites true "new" (some ⟨[⟨"t0", "QmA"⟩], "old"⟩) rfl

/-- C8: for a path `p` that is not a directory, the `init <p>` dispatch
prints `p is not a directory.`, exits 1, and leaves the config file exactly
as it was (no write). -/
theorem mainInit_not_a_directory (isdir : Bool) (p : String)
    (file0 : Option Config) (hdir : isdir = false) :
    mainInit isdir p file0 =
      { prints := [p ++ " is not a directory."], file := file0,
        exitCode := 1 } := by
  rw [hdir]
  rfl

/-- C8 (witness): `init "missing"` with no pre-existing config file exits 1
with the message and still no file. -/
theorem mainInit_not_a_directory_w :
    mainInit false "missing" none =
      { prints := ["missing is not a directory."], file := none,
        exitCode := 1 } :=
  mainInit_not_a_directory false "missing" none rfl

/-- C9: with an empty versions list, `deploy` spawns no remote command and
prints nothing, and the `deploy` dispatch of `main` exits with status 0. -/
theorem deploy_empty_versions (env : DeployEnv) (config : Config)
    (hv : config.versions = []) :
    deploy env config = { prints := [], commands := [] } ∧
    mainDeploy true env config = ({ prints := [], commands := [] }, 0) := by
  have hd : deploy env config = { prints := [], commands := [] } := by
    rw [deploy, dif_neg]
    rw [hv]
    simp
  exact ⟨hd, by rw [mainDeploy, if_pos rfl, hd]⟩

/-- C9 (witness): deploying a freshly initialised record is a silent no-op
with exit status 0. -/
theorem deploy_empty_versions_w :
    deploy ⟨"out", "err"⟩ ⟨[], "d"⟩ = { prints := [], commands := [] } ∧
    mainDeploy true ⟨"out", "err"⟩ ⟨[], "d"⟩ =
      ({ prints := [], commands := [] }, 0) :=
  deploy_empty_versions ⟨"out", "err"⟩ ⟨[], "d"⟩ rfl

/-- C10: with at least one version entry, `deploy` spawns exactly one remote
command, and that command string embeds the hash of the LAST entry exactly
twice: once after `ipfs pin add` and once after `ipfs name publish`. -/
theorem deploy_invokes_once (env : DeployEnv) (config : Config)
    (last : VersionEntry)
    (hlast : config.versions.getLast? = some last) :
    (deploy env config).commands =
      ["ssh -t basile@basilehenry.com \"ipfs pin add " ++ last.hash ++
        " && ipfs name publish " ++ last.hash ++ "\""] ∧
    (deploy env config).commands.length = 1 := by
  have hne : config.versions ≠ [] := by
    intro hnil
    rw [hnil] at hlast
    simp [List.getLast?] at hlast
  have hlen : 0 < config.versions.length := List.length_pos.mpr hne
  have hgl : config.versions.getLast (List.ne_nil_of_length_pos hlen) = last := by
    have := List.getLast?_eq_getLast config.versions
      (List.ne_nil_of_length_pos hlen)
    rw [this] at hlast
    exact Option.some.inj hlast
  have hd : deploy env config =
      { prints := [env.remoteOut],
        commands := [deployCommand last.hash] } := by
    rw [deploy, dif_pos hlen]
    simp [communicateStdoutOnly, hgl]
  rw [hd]
  exact ⟨rfl, rfl⟩

/-- C10 (witness): with two stored versions, the single spawned command
targets the hash of the last entry, `"QmB"`. -/
theorem deploy_invokes_once_w :
    (deploy ⟨"out", "err"⟩ ⟨[⟨"t0", "QmA"⟩, ⟨"t1", "QmB"⟩], "d"⟩).commands =
      ["ssh -t basile@basilehenry.com \"ipfs pin add QmB && ipfs name publish QmB\""] ∧
    (deploy ⟨"out", "err"⟩
      ⟨[⟨"t0", "QmA"⟩, ⟨"t1", "QmB"⟩], "d"⟩).commands.length = 1 :=
  deploy_invokes_once ⟨"out", "err"⟩ ⟨[⟨"t0", "QmA"⟩, ⟨"t1", "QmB"⟩], "d"⟩
    ⟨"t1", "QmB"⟩ (by decide)
